import Mathlib

/-
Verification of the configuration-resolution and process-execution pipeline of
the ansible-tui repository, as a shallow embedding in Lean 4.

Conventions of the embedding:
  - Go strings are Lean String; Go int is Lean Int.
  - Go errors are modelled by GoErr (the repository's two error wrapper types
    InputError and ExecutionError, plus osError for every untyped error coming
    out of the standard library: file IO, stat, symlink resolution, Atoi).
  - A Go function returning error returns Option GoErr (none = nil);
    a Go method mutating its receiver and returning error becomes a function
    returning Except GoErr PlaybookConfig (ok carries the mutated record).
  - File-system and OS effects (stat, EvalSymlinks, Mkdir, WriteFile, Abs,
    Getwd, the HOME variable) are parameterized by oracle records (Fs, EnvFs)
    so that the control flow of the source is captured exactly while the
    ambient system stays abstract.
  - The process environment is an association list of (name, value) pairs;
    os.Getenv of an unset variable is "" exactly as in Go.
  - Go map iteration order is unspecified; maps are modelled as association
    lists and only order-insensitive facts are proved about them.
-/

namespace AnsibleTui

/-- Substring test: for a literal pattern, Go regexp FindString returns a
non-empty match exactly when the pattern occurs in the subject string. -/
def strContains (s pat : String) : Bool :=
  s.data.tails.any (fun t => pat.data.isPrefixOf t)

/-- Error model: InputError and ExecutionError are the repository's wrapper
types; osError stands for any plain error from the Go standard library. -/
inductive GoErr where
  | inputError (msg : String)
  | executionError (msg : String)
  | osError (msg : String)
deriving DecidableEq

deriving instance DecidableEq for Except

/-- Test whether an error value is an InputError wrapper. -/
def GoErr.isInputError : GoErr → Bool
  | .inputError _ => true
  | _ => false

/-- EnvironmentVariables sub-record: Pass is a Go slice; Set is a Go map,
with none modelling a nil map (distinct from an empty one). -/
structure PlaybookEnvironmentVariables where
  pass : List String
  set : Option (List (String × String))
deriving DecidableEq

/-- Metrics sub-record of PlaybookConfig. -/
structure PlaybookMetrics where
  exitCode : Int
  error : Option GoErr
  inventoryCount : Nat
deriving DecidableEq

/-- TuiParams sub-record of PlaybookConfig. -/
structure TuiParams where
  playbookDir : String
  inventoryDir : String
  imageFilter : String
  virtualEnvsDir : String
deriving DecidableEq

/-- PlaybookConfig of the cmd package (config.go); the cmd/api legacy variant
uses the subset of these fields it declares. -/
structure PlaybookConfig where
  playbook : String
  verboseLevel : Int
  sshPrivateKeyFile : String
  remoteUser : String
  inventoryFile : String
  limitHost : String
  extraVarsFile : String
  ansibleTags : String
  ansibleSkipTags : String
  extraArgs : String
  windowsGroup : String
  executionType : String
  image : String
  virtualEnvPath : String
  playbookTimeout : Int
  environmentVariables : PlaybookEnvironmentVariables
  metrics : PlaybookMetrics
  tempDirPath : String
  configFilePath : String
  tui : TuiParams
deriving DecidableEq

/-- The all-zero configuration record (Go zero value). -/
def emptyPlaybookConfig : PlaybookConfig :=
  { playbook := "", verboseLevel := 0, sshPrivateKeyFile := "", remoteUser := ""
    inventoryFile := "", limitHost := "", extraVarsFile := "", ansibleTags := ""
    ansibleSkipTags := "", extraArgs := "", windowsGroup := "", executionType := ""
    image := "", virtualEnvPath := "", playbookTimeout := 0
    environmentVariables := { pass := [], set := none }
    metrics := { exitCode := 0, error := none, inventoryCount := 0 }
    tempDirPath := "", configFilePath := ""
    tui := { playbookDir := "", inventoryDir := "", imageFilter := "", virtualEnvsDir := "" } }

/-- NewPlaybookConfig: defaults set internally. -/
def NewPlaybookConfig : PlaybookConfig :=
  { emptyPlaybookConfig with playbookTimeout := 86400, verboseLevel := 1 }

/-- Character class of the path allow-list regexp `^[a-zA-Z0-9./\-_]+$`. -/
def isPathChar (c : Char) : Bool :=
  c.isAlpha || c.isDigit || c = '.' || c = '/' || c = '-' || c = '_'

/-- regExpPathName.MatchString: the whole string is a non-empty run of
allow-listed characters. -/
def regExpPathNameMatches (s : String) : Bool :=
  !s.data.isEmpty && s.data.all isPathChar

/-- File-system oracle for path validation: resolution of symlinks, stat
(existence restricted to success-or-IsNotExist as the source assumes),
directory test, filepath.Abs, and the HOME variable. -/
structure Fs where
  evalSymlinks : String → Except String String
  statExists : String → Bool
  isDir : String → Bool
  abs : String → String
  home : String

/-- sanitizePath of the cmd package (utils.go): allow-list check, then the
literal `..` ban, then symlink resolution (whose failure is returned as-is). -/
def sanitizePath (evalSymlinks : String → Except String String) (path : String) :
    Option GoErr :=
  if !regExpPathNameMatches path then
    some (.inputError "invalid characters in path")
  else if strContains path ".." then
    some (.inputError "relative back traversal not allowed in paths")
  else match evalSymlinks path with
    | .error e => some (.osError e)
    | .ok _ => none

/-- sanitizePath of the legacy package-main copy (identical control flow,
different InputError message for the `..` case). -/
def sanitizePathMain (evalSymlinks : String → Except String String) (path : String) :
    Option GoErr :=
  if !regExpPathNameMatches path then
    some (.inputError "invalid characters in path")
  else if strContains path ".." then
    some (.inputError "relative paths not allowed")
  else match evalSymlinks path with
    | .error e => some (.osError e)
    | .ok _ => none

/-- checkRelativePath: regexp `^\./` finds a match iff the path starts
with the two characters "./". -/
def checkRelativePath (path : String) : Bool :=
  "./".data.isPrefixOf path.data

/-- pathExists of the cmd package: Go returns (ok, err); err is nil exactly
when ok is true (assuming stat either succeeds or reports IsNotExist). -/
def pathExists (fs : Fs) (path : String) (dir : Bool) : Bool × Option GoErr :=
  if !fs.statExists path then
    (false, some (.osError "path does not exist"))
  else if dir && !fs.isDir path then
    (false, some (.inputError "path must be a directory"))
  else if !dir && fs.isDir path then
    (false, some (.inputError "path must be a file, not a directory"))
  else
    (true, none)

/-- Claim C5: every path that contains the two-character substring ".." is
rejected by sanitizePath with an InputError, whatever the rest of the path
contains: a path that also carries a character outside the allow-list fails
the character check with an InputError, and every other path containing ".."
fails the double-dot check with an InputError, before any symlink resolution
is attempted. -/
theorem sanitizePath_dbldots_inputError
    (ev : String → Except String String) (p : String)
    (h : strContains p ".." = true) :
    ∃ msg, sanitizePath ev p = some (.inputError msg) := by
  unfold sanitizePath
  by_cases hc : regExpPathNameMatches p
  · refine ⟨"relative back traversal not allowed in paths", ?_⟩
    simp [hc, h]
  · refine ⟨"invalid characters in path", ?_⟩
    simp [hc]

/-- Witness for C5: the theorem applied to the concrete inputs "a..b"
(allow-listed characters) and "a..!" (a disallowed character), with a symlink
oracle that always succeeds. -/
theorem sanitizePath_dbldots_inputError_witness :
    (∃ msg, sanitizePath (fun s => .ok s) "a..b" = some (.inputError msg)) ∧
    (∃ msg, sanitizePath (fun s => .ok s) "a..!" = some (.inputError msg)) :=
  ⟨sanitizePath_dbldots_inputError (fun s => .ok s) "a..b" (by decide),
   sanitizePath_dbldots_inputError (fun s => .ok s) "a..!" (by decide)⟩

/-- Outcome of cmd.Wait() on a started process: a nil error (zero exit), an
exec.ExitError carrying the exit code (non-zero exit or signal), or any other
wait failure (I/O error on the wait itself). -/
inductive WaitResult where
  | success
  | exitError (code : Int)
  | otherError (msg : String)
deriving DecidableEq

/-- Outcome of cmd.Start() followed, when the start succeeded, by cmd.Wait(). -/
inductive StartResult where
  | started (wait : WaitResult)
  | startFailed (msg : String)
deriving DecidableEq

/-- Error value returned by RunBufferedCommand, tagged by its origin: the
cmd.Start error, or the raw cmd.Wait error (an ExitError for a completed
non-zero exit, or any other wait failure). -/
inductive CmdError where
  | startError (msg : String)
  | exitError (code : Int)
  | waitError (msg : String)
deriving DecidableEq

/-- RunBufferedCommand of the cmd package (utils.go), reduced to its
result-translation logic: the subprocess run is abstracted by the observed
StartResult and by the lines the merged stdout+stderr reader delivered.
The source returns (rc, captured lines, err) where err is the raw error of
cmd.Start or cmd.Wait: on start failure rc is 1; on a wait ExitError rc is
the child's exit code; on any other wait error rc is 1; on a nil wait error
rc is 0 - and err is returned unchanged in every case. Lines are captured
only when captureOutput is set. -/
def RunBufferedCommand (outcome : StartResult) (outputLines : List String)
    (captureOutput : Bool) : Int × List String × Option CmdError :=
  match outcome with
  | .startFailed msg => (1, [], some (.startError msg))
  | .started w =>
      let captured := if captureOutput then outputLines else []
      match w with
      | .success => (0, captured, none)
      | .exitError code => (code, captured, some (.exitError code))
      | .otherError msg => (1, captured, some (.waitError msg))

/-- Counterexample to claim C2 as stated: a child that was started, waited on,
and merely exited with code 2 makes RunBufferedCommand return exit code 2
together with a NON-nil error (the raw ExitError from cmd.Wait), not a nil
error. -/
theorem runBufferedCommand_nonzero_exit_error_not_nil :
    (RunBufferedCommand (.started (.exitError 2)) [] false).1 = 2 ∧
    (RunBufferedCommand (.started (.exitError 2)) [] false).2.2 ≠ none := by
  decide

/-- Claim C2 amended: RunBufferedCommand passes the cmd.Wait error through
unchanged, so for a started-and-waited run the returned error is nil exactly
when the child exited zero; a normal non-zero exit returns the exit code
together with the non-nil ExitError; any other wait failure returns exit
code 1 with the non-nil wait error; a start failure returns exit code 1 with
the start error. -/
theorem runBufferedCommand_error_translation (w : WaitResult)
    (lines : List String) (cap : Bool) :
    (RunBufferedCommand (.started w) lines cap =
      match w with
      | .success => (0, if cap then lines else [], none)
      | .exitError code => (code, if cap then lines else [], some (.exitError code))
      | .otherError msg => (1, if cap then lines else [], some (.waitError msg))) ∧
    (∀ msg, RunBufferedCommand (.startFailed msg) lines cap =
      (1, [], some (.startError msg))) := by
  constructor
  · cases w <;> rfl
  · intro msg; rfl

/-- Getenv over the association-list model of the process environment:
os.Getenv returns "" for an unset variable. -/
def getenv (env : List (String × String)) (k : String) : String :=
  match env.find? (fun p => p.1 == k) with
  | some p => p.2
  | none => ""

/-- Go map write m[k] = v on the association-list model: replace the binding
if the key is present, append it otherwise. -/
def mapSet (m : List (String × String)) (k v : String) : List (String × String) :=
  if m.any (fun p => p.1 == k) then
    m.map (fun p => if p.1 == k then (k, v) else p)
  else
    m ++ [(k, v)]

/-- Go map delete(m, k) on the association-list model. -/
def mapDelete (m : List (String × String)) (k : String) : List (String × String) :=
  m.filter (fun p => p.1 != k)

/-- Result of ProcessEnvs: the Go function either panics (assignment into a
nil map) or returns the mutated config, the resulting process environment,
and its error result (which the source only ever sets to nil). -/
inductive ProcessEnvsResult where
  | panicked
  | ok (cfg : PlaybookConfig) (osEnv : List (String × String)) (err : Option GoErr)
deriving DecidableEq

/-- ProcessEnvs of the cmd package (config.go). Steps of the source:
(1) envPass := the pass-list names whose current environment value is
non-empty, mapped to those values (a Go map; empty values are only warned
about); (2) every (k, v) in EnvironmentVariables.Set is removed from envPass,
set in the OS environment, and recorded in envKeyIdx (ranging over a nil map
runs zero iterations); (3) every surviving envPass entry is written into
EnvironmentVariables.Set - which panics when that map is nil - and recorded
in envKeyIdx (no Setenv: the value is already in the environment);
(4) Pass is truncated to length 0; (5) every environment variable whose name
is in neither envKeyIdx nor the PATH/HOME auto-pass list is unset. -/
def ProcessEnvs (osEnv : List (String × String)) (c : PlaybookConfig) :
    ProcessEnvsResult :=
  let envPass := c.environmentVariables.pass.foldl
    (fun m k => if getenv osEnv k ≠ "" then mapSet m k (getenv osEnv k) else m) []
  match c.environmentVariables.set with
  | none =>
      if envPass.isEmpty then
        let keep := fun (p : String × String) => p.1 == "PATH" || p.1 == "HOME"
        .ok { c with environmentVariables := { pass := [], set := none } }
          (osEnv.filter keep) none
      else
        .panicked
  | some setm =>
      let envPass2 := setm.foldl (fun ep p => mapDelete ep p.1) envPass
      let osEnv2 := setm.foldl (fun e p => mapSet e p.1 p.2) osEnv
      let setm2 := envPass2.foldl (fun m p => mapSet m p.1 p.2) setm
      let envKeyIdx := setm.map (fun p => p.1) ++ envPass2.map (fun p => p.1)
      let keep := fun (p : String × String) =>
        envKeyIdx.contains p.1 || p.1 == "PATH" || p.1 == "HOME"
      .ok { c with environmentVariables := { pass := [], set := some setm2 } }
        (osEnv2.filter keep) none

/-- Concrete configuration used to refute claim C3: one pass-through variable
and an empty (non-nil) Set map. -/
def cfgC3 : PlaybookConfig :=
  { emptyPlaybookConfig with
      environmentVariables := { pass := ["FOO"], set := some [] } }

/-- Counterexample to claim C3 as stated: with pass = ["FOO"], an empty
non-nil Set map, and FOO=bar in the environment, ProcessEnvs returns a config
whose EnvironmentVariables record CHANGED: FOO was moved into Set and Pass
was truncated to empty, so the config record is written after all. -/
theorem processEnvs_writes_config_record :
    ProcessEnvs [("FOO", "bar")] cfgC3 =
      .ok { cfgC3 with environmentVariables := { pass := [], set := some [("FOO", "bar")] } }
        [("FOO", "bar")] none ∧
    ({ cfgC3 with environmentVariables := { pass := [], set := some [("FOO", "bar")] } }
        : PlaybookConfig).environmentVariables ≠ cfgC3.environmentVariables := by
  decide

/-- Claim C3 amended: ProcessEnvs does write the config record, but only its
EnvironmentVariables portion: on every non-panicking run the pass list is
truncated to empty (resolved pass-through entries having been merged into
Set), every other field of the record is unchanged, and the error result is
nil. -/
theorem processEnvs_frame (osEnv : List (String × String)) (c c' : PlaybookConfig)
    (e' : List (String × String)) (err : Option GoErr)
    (h : ProcessEnvs osEnv c = .ok c' e' err) :
    c'.environmentVariables.pass = [] ∧ err = none ∧
    c'.playbook = c.playbook ∧ c'.verboseLevel = c.verboseLevel ∧
    c'.sshPrivateKeyFile = c.sshPrivateKeyFile ∧ c'.remoteUser = c.remoteUser ∧
    c'.inventoryFile = c.inventoryFile ∧ c'.limitHost = c.limitHost ∧
    c'.extraVarsFile = c.extraVarsFile ∧ c'.ansibleTags = c.ansibleTags ∧
    c'.ansibleSkipTags = c.ansibleSkipTags ∧ c'.extraArgs = c.extraArgs ∧
    c'.windowsGroup = c.windowsGroup ∧ c'.executionType = c.executionType ∧
    c'.image = c.image ∧ c'.virtualEnvPath = c.virtualEnvPath ∧
    c'.playbookTimeout = c.playbookTimeout ∧ c'.metrics = c.metrics ∧
    c'.tempDirPath = c.tempDirPath ∧ c'.configFilePath = c.configFilePath ∧
    c'.tui = c.tui := by
  unfold ProcessEnvs at h
  cases hset : c.environmentVariables.set with
  | none =>
      rw [hset] at h
      simp only at h
      split at h
      · cases h
        simp
      · cases h
  | some setm =>
      rw [hset] at h
      simp only at h
      cases h
      simp

/-- Witness for C3's amended theorem: applied to the concrete run of the
counterexample input. -/
theorem processEnvs_frame_witness :
    (({ cfgC3 with environmentVariables := { pass := [], set := some [("FOO", "bar")] } }
      : PlaybookConfig).environmentVariables.pass = []) ∧
    ((none : Option GoErr) = none) := by
  have h := processEnvs_frame [("FOO", "bar")] cfgC3
    { cfgC3 with environmentVariables := { pass := [], set := some [("FOO", "bar")] } }
    [("FOO", "bar")] none (by decide)
  exact ⟨h.1, h.2.1⟩

/-- Helper: a Go map write never produces an empty map. -/
theorem mapSet_not_empty (m : List (String × String)) (k v : String) :
    (mapSet m k v).isEmpty = false := by
  unfold mapSet
  split
  · rename_i h
    cases m with
    | nil => simp at h
    | cons a tl => simp
  · simp

/-- Helper: if the envPass accumulation loop of ProcessEnvs ends empty, it
started empty and no listed pass-through name had a non-empty value. -/
theorem passFold_empty (env : List (String × String)) (ks : List String)
    (init : List (String × String))
    (h : (ks.foldl
        (fun m k => if getenv env k ≠ "" then mapSet m k (getenv env k) else m)
        init).isEmpty = true) :
    init.isEmpty = true ∧ ∀ k ∈ ks, getenv env k = "" := by
  induction ks generalizing init with
  | nil => exact ⟨h, by simp⟩
  | cons k tl ih =>
      rw [List.foldl_cons] at h
      have step := ih _ h
      by_cases hk : getenv env k ≠ ""
      · rw [if_pos hk] at step
        have := mapSet_not_empty init k (getenv env k)
        rw [step.1] at this
        cases this
      · rw [if_neg hk] at step
        push_neg at hk
        refine ⟨step.1, ?_⟩
        intro x hx
        rcases List.mem_cons.mp hx with h1 | h2
        · rw [h1]; exact hk
        · exact step.2 x h2

/-- Claim C10: when EnvironmentVariables.Set is a nil map and some name in
EnvironmentVariables.Pass resolves to a non-empty environment value,
ProcessEnvs panics (assignment into a nil map) rather than returning an
error; and its error result never reports anything - every non-panicking
run returns a nil error. -/
theorem processEnvs_nil_set_panics (osEnv : List (String × String))
    (c : PlaybookConfig)
    (hset : c.environmentVariables.set = none)
    (hk : ∃ k ∈ c.environmentVariables.pass, getenv osEnv k ≠ "") :
    ProcessEnvs osEnv c = .panicked ∧
    ∀ (env₂ : List (String × String)) (c₂ c' : PlaybookConfig)
      (e' : List (String × String)) (err : Option GoErr),
      ProcessEnvs env₂ c₂ = .ok c' e' err → err = none := by
  constructor
  · unfold ProcessEnvs
    rw [hset]
    simp only
    split
    · rename_i hempty
      obtain ⟨k, hmem, hne⟩ := hk
      have := (passFold_empty osEnv c.environmentVariables.pass [] hempty).2 k hmem
      exact absurd this hne
    · rfl
  · intro env₂ c₂ c' e' err h
    unfold ProcessEnvs at h
    cases hs : c₂.environmentVariables.set with
    | none =>
        rw [hs] at h
        simp only at h
        split at h
        · cases h; rfl
        · cases h
    | some setm =>
        rw [hs] at h
        simp only at h
        cases h; rfl

/-- Witness for C10: Set is nil, Pass lists FOO, and FOO=bar is set in the
environment; ProcessEnvs panics. -/
theorem processEnvs_nil_set_panics_witness :
    ProcessEnvs [("FOO", "bar")]
      { emptyPlaybookConfig with
          environmentVariables := { pass := ["FOO"], set := none } } = .panicked :=
  (processEnvs_nil_set_panics [("FOO", "bar")]
    { emptyPlaybookConfig with
        environmentVariables := { pass := ["FOO"], set := none } }
    rfl ⟨"FOO", by decide, by decide⟩).1

/-- Character class `[\w\._-]` of the inventory-graph regexps: word
characters (letters, digits, underscore) plus dot and hyphen. -/
def isInvNameChar (c : Char) : Bool :=
  c.isAlpha || c.isDigit || c = '_' || c = '.' || c = '-'

/-- regExpInvGroup.FindString(s) is non-empty iff s matches
`\@([\w\._-]+)\:$`: the line ends in ':', immediately preceded by a
non-empty run of name characters, immediately preceded by '@'. (Since '@' is
not a name character, the run before the colon in any match is exactly the
maximal one.) -/
def invGroupMatches (s : String) : Bool :=
  match s.data.reverse with
  | ':' :: rest =>
      !(rest.takeWhile isInvNameChar).isEmpty &&
      (match rest.dropWhile isInvNameChar with
       | '@' :: _ => true
       | _ => false)
  | _ => false

/-- Leftmost-match scan for regExpInvHost `\|--([\w\._-]+)$`: at each
position, the pattern matches iff the character is '|', the next two are
"--", and the remainder of the line is a non-empty run of name characters;
the matched string (which FindString returns) always extends to the end of
the line. -/
def invHostFindAux : List Char → Option (List Char)
  | [] => none
  | c :: rest =>
      if c = '|' ∧ rest.take 2 = ['-', '-'] ∧ (rest.drop 2) ≠ [] ∧
         (rest.drop 2).all isInvNameChar = true then
        some (c :: rest)
      else
        invHostFindAux rest

/-- regExpInvHost.FindString: the leftmost match of `\|--([\w\._-]+)$`,
or none when the regexp does not match. -/
def invHostFind (s : String) : Option String :=
  (invHostFindAux s.data).map (fun l => String.mk l)

/-- Go map insertion used to deduplicate hosts: inserting an existing key
leaves the key set unchanged. -/
def insertHost (hosts : List String) (m : String) : List String :=
  if hosts.contains m then hosts else hosts ++ [m]

/-- Stdout scanner loop of validateAnsibleInventory (inventory.go): skip
every line that matches the group regexp, insert the matched string of the
host regexp into the deduplicating host map; the result models the key set
of the ansibleHosts map. -/
def inventoryHostsFold (lines : List String) : List String :=
  lines.foldl
    (fun acc l =>
      if invGroupMatches l then acc
      else match invHostFind l with
        | some m => insertHost acc m
        | none => acc)
    []

/-- Observed behaviour of one started ansible-inventory --graph run: the
lines delivered on each pipe and the cmd.Wait outcome. -/
structure InvRun where
  stderrLines : List String
  stdoutLines : List String
  wait : WaitResult

/-- validateAnsibleInventory of the cmd package (inventory.go), for a run
whose process was found, piped and started successfully (the earlier LookPath
and pipe failures return those errors unchanged and are not modelled here).
The stderr scanner sets rc to 1 when a line contains the literal
": Unable to parse"; the stdout scanner counts distinct host matches into
Metrics.InventoryCount; cmd.Wait overwrites rc with the exit code on an
ExitError and with 1 on any other wait error; a final non-zero rc is reported
as the InputError "inventory is not valid". -/
def validateAnsibleInventory (c : PlaybookConfig) (run : InvRun) :
    PlaybookConfig × Option GoErr :=
  let rcStderr : Int :=
    if run.stderrLines.any (fun l => strContains l ": Unable to parse") then 1 else 0
  let hosts := inventoryHostsFold run.stdoutLines
  let c' := { c with metrics := { c.metrics with inventoryCount := hosts.length } }
  let rc : Int :=
    match run.wait with
    | .success => rcStderr
    | .exitError code => code
    | .otherError _ => 1
  (c', if rc ≠ 0 then some (.inputError "inventory is not valid") else none)

/-- Claim C7: on the inventory-graph stdout "@all:", "|--host1",
"|--web:children", "|--host1", validateAnsibleInventory records an inventory
host count of exactly 1: the "@all:" line matches the group regexp and is
skipped, "|--web:children" matches neither regexp (its colon is outside the
host name class) and is not counted, and the duplicate "|--host1" line is
deduplicated by the host map. -/
theorem inventory_count_dedup :
    ((validateAnsibleInventory emptyPlaybookConfig
        { stderrLines := [],
          stdoutLines := ["@all:", "|--host1", "|--web:children", "|--host1"],
          wait := .success }).1).metrics.inventoryCount = 1 ∧
    invGroupMatches "@all:" = true ∧
    invGroupMatches "|--web:children" = false ∧
    invHostFind "|--web:children" = none ∧
    invHostFind "|--host1" = some "|--host1" := by
  refine ⟨?_, by decide, by decide, ?_, ?_⟩
  · decide
  · decide
  · decide

/-- Claim C8: when some stderr line of the ansible-inventory run contains the
literal substring ": Unable to parse", validateAnsibleInventory reports the
inventory invalid (a non-nil InputError) even though the process exited with
code 0. -/
theorem inventory_parse_error_forces_failure (c : PlaybookConfig) (run : InvRun)
    (hmarker : ∃ l ∈ run.stderrLines, strContains l ": Unable to parse" = true)
    (hexit : run.wait = .success) :
    (validateAnsibleInventory c run).2 = some (.inputError "inventory is not valid") := by
  unfold validateAnsibleInventory
  rw [hexit]
  have hany : run.stderrLines.any (fun l => strContains l ": Unable to parse") = true := by
    rw [List.any_eq_true]
    obtain ⟨l, hl, hc⟩ := hmarker
    exact ⟨l, hl, hc⟩
  simp only [hany, if_pos]
  norm_num

/-- Witness for C8: a concrete run whose stderr carries the ansible parse
warning while the process exits 0. -/
theorem inventory_parse_error_forces_failure_witness :
    (validateAnsibleInventory emptyPlaybookConfig
        { stderrLines := ["ERROR! Unable to parse inventory ./h : Unable to parse"],
          stdoutLines := [], wait := .success }).2 =
      some (.inputError "inventory is not valid") :=
  inventory_parse_error_forces_failure emptyPlaybookConfig
    { stderrLines := ["ERROR! Unable to parse inventory ./h : Unable to parse"],
      stdoutLines := [], wait := .success }
    ⟨"ERROR! Unable to parse inventory ./h : Unable to parse",
      by decide, by decide⟩ rfl

/-- Numeric value of a digit string. -/
def digitsVal (l : List Char) : Int :=
  l.foldl (fun n c => n * 10 + ((c.toNat : Int) - ('0'.toNat : Int))) 0

/-- strconv.Atoi: optional single sign followed by at least one digit
(64-bit range overflow is not modelled; no claim depends on it). -/
def goAtoi (s : String) : Option Int :=
  match s.data with
  | [] => none
  | '+' :: rest =>
      if rest ≠ [] ∧ rest.all Char.isDigit = true then some (digitsVal rest) else none
  | '-' :: rest =>
      if rest ≠ [] ∧ rest.all Char.isDigit = true then some (-(digitsVal rest)) else none
  | l =>
      if l.all Char.isDigit = true then some (digitsVal l) else none

/-- File-system oracle for ReadEnvs: working directory, the boolean result of
pathExists(p, true), os.Mkdir via ensureDir, and WriteFileFromString. -/
structure EnvFs where
  cwd : String
  dirExists : String → Bool
  ensureDir : String → Option GoErr
  writeFile : String → String → Option GoErr

/-- filepath.Join of two components (cleaning of redundant separators is
immaterial to the claims). -/
def joinPath (a b : String) : String := a ++ "/" ++ b

/-- ReadEnvs, first straight-line section: PLAYBOOK, VERBOSE_LEVEL (a value
that fails Atoi is warned about and DROPPED, keeping the current field),
SSH_PRIVATE_KEY_FILE, ANSIBLE_REMOTE_USER, TMP_DIR_PATH. -/
def readEnvsStep1 (env : String → String) (c : PlaybookConfig) : PlaybookConfig :=
  { c with
    playbook := if env "PLAYBOOK" ≠ "" then env "PLAYBOOK" else c.playbook
    verboseLevel :=
      if env "VERBOSE_LEVEL" ≠ "" then
        match goAtoi (env "VERBOSE_LEVEL") with
        | some n => n
        | none => c.verboseLevel
      else c.verboseLevel
    sshPrivateKeyFile :=
      if env "SSH_PRIVATE_KEY_FILE" ≠ "" then env "SSH_PRIVATE_KEY_FILE"
      else c.sshPrivateKeyFile
    remoteUser :=
      if env "ANSIBLE_REMOTE_USER" ≠ "" then env "ANSIBLE_REMOTE_USER"
      else c.remoteUser
    tempDirPath :=
      if env "TMP_DIR_PATH" ≠ "" then env "TMP_DIR_PATH" else c.tempDirPath }

/-- ReadEnvs, temp-dir section: a relative temp-dir path is joined to the
working directory; when the directory does not exist, ensureDir is attempted
and its failure is returned. -/
def readEnvsTempDir (fs : EnvFs) (c : PlaybookConfig) : Option GoErr :=
  let p := c.tempDirPath
  let p := if checkRelativePath p then joinPath fs.cwd p else p
  if !fs.dirExists p then fs.ensureDir p else none

/-- ReadEnvs, inventory section: INVENTORY_FILE, INVENTORY_CONTENTS (written
to ./hosts-INVENTORY; a write failure is returned as-is), a source count
check, INVENTORY_URL, and the source count check again; more than one
inventory source is the InputError "only one inventory environment variable
is allowed". -/
def readEnvsInventory (env : String → String) (fs : EnvFs) (c : PlaybookConfig) :
    Except GoErr PlaybookConfig :=
  let inventoryFile := env "INVENTORY_FILE"
  let inventoryContents := env "INVENTORY_CONTENTS"
  let inventoryUrl := env "INVENTORY_URL"
  let c := { c with inventoryFile := if inventoryFile ≠ "" then inventoryFile else c.inventoryFile }
  let n : Nat := if inventoryFile ≠ "" then 1 else 0
  let step2 : Except GoErr (PlaybookConfig × Nat) :=
    if inventoryContents ≠ "" then
      match fs.writeFile "./hosts-INVENTORY" inventoryContents with
      | some e => .error e
      | none => .ok ({ c with inventoryFile := "./hosts-INVENTORY" }, n + 1)
    else .ok (c, n)
  match step2 with
  | .error e => .error e
  | .ok (c, n) =>
      if n > 1 then
        .error (.inputError "only one inventory environment variable is allowed")
      else
        let c := { c with
          inventoryFile := if inventoryUrl ≠ "" then "./hosts-INVENTORY" else c.inventoryFile }
        let n := if inventoryUrl ≠ "" then n + 1 else n
        if n > 1 then
          .error (.inputError "only one inventory environment variable is allowed")
        else .ok c

/-- ReadEnvs, extra-vars section: EXTRA_VARS_FILE, EXTRA_VARS_CONTENTS
(written to PLAYBOOK-extravars), and the source count check. -/
def readEnvsVars (env : String → String) (fs : EnvFs) (c : PlaybookConfig) :
    Except GoErr PlaybookConfig :=
  let extraVarsFile := env "EXTRA_VARS_FILE"
  let extraVarsContents := env "EXTRA_VARS_CONTENTS"
  let c := { c with extraVarsFile := if extraVarsFile ≠ "" then extraVarsFile else c.extraVarsFile }
  let n : Nat := if extraVarsFile ≠ "" then 1 else 0
  let step2 : Except GoErr (PlaybookConfig × Nat) :=
    if extraVarsContents ≠ "" then
      match fs.writeFile "PLAYBOOK-extravars" extraVarsContents with
      | some e => .error e
      | none => .ok ({ c with extraVarsFile := "PLAYBOOK-extravars" }, n + 1)
    else .ok (c, n)
  match step2 with
  | .error e => .error e
  | .ok (c, n) =>
      if n > 1 then
        .error (.inputError "only one extra-vars environment variable is allowed")
      else .ok c

/-- ReadEnvs, ANSIBLE_PLAYBOOK_TIMEOUT section: an unparsable value is a
returned error (unlike VERBOSE_LEVEL). -/
def readEnvsTimeout (env : String → String) (c : PlaybookConfig) :
    Except GoErr PlaybookConfig :=
  if env "ANSIBLE_PLAYBOOK_TIMEOUT" ≠ "" then
    match goAtoi (env "ANSIBLE_PLAYBOOK_TIMEOUT") with
    | some n => .ok { c with playbookTimeout := n }
    | none => .error (.osError "strconv.Atoi: ANSIBLE_PLAYBOOK_TIMEOUT")
  else .ok c

/-- ReadEnvs, trailing straight-line section: ANSIBLE_TAGS,
ANSIBLE_SKIP_TAGS, EXTRA_ARGS, WINDOWS_GROUP, VIRTUAL_ENV, CONTAINER_IMAGE. -/
def readEnvsTail (env : String → String) (c : PlaybookConfig) : PlaybookConfig :=
  { c with
    ansibleTags := if env "ANSIBLE_TAGS" ≠ "" then env "ANSIBLE_TAGS" else c.ansibleTags
    ansibleSkipTags :=
      if env "ANSIBLE_SKIP_TAGS" ≠ "" then env "ANSIBLE_SKIP_TAGS" else c.ansibleSkipTags
    extraArgs := if env "EXTRA_ARGS" ≠ "" then env "EXTRA_ARGS" else c.extraArgs
    windowsGroup :=
      if env "WINDOWS_GROUP" ≠ "" then env "WINDOWS_GROUP" else c.windowsGroup
    virtualEnvPath :=
      if env "VIRTUAL_ENV" ≠ "" then env "VIRTUAL_ENV" else c.virtualEnvPath
    image := if env "CONTAINER_IMAGE" ≠ "" then env "CONTAINER_IMAGE" else c.image }

/-- ReadEnvs of the cmd package (config.go): the sections above in source
order, with LIMIT_HOST read between the inventory and extra-vars sections. -/
def ReadEnvs (env : String → String) (fs : EnvFs) (c : PlaybookConfig) :
    Except GoErr PlaybookConfig :=
  let c1 := readEnvsStep1 env c
  match readEnvsTempDir fs c1 with
  | some e => .error e
  | none =>
      match readEnvsInventory env fs c1 with
      | .error e => .error e
      | .ok c2 =>
          let c2 := { c2 with
            limitHost := if env "LIMIT_HOST" ≠ "" then env "LIMIT_HOST" else c2.limitHost }
          match readEnvsVars env fs c2 with
          | .error e => .error e
          | .ok c3 =>
              match readEnvsTimeout env c3 with
              | .error e => .error e
              | .ok c4 => .ok (readEnvsTail env c4)

/-- Oracle for ReadConf: the outcome of os.ReadFile and of yaml.Unmarshal
merging the file's contents into the existing record. -/
structure ConfFile where
  readFile : Except GoErr Unit
  unmarshal : PlaybookConfig → Except GoErr PlaybookConfig

/-- ReadConf of the cmd package (config.go): an empty path is a no-op;
otherwise the file is read and unmarshalled over the record. -/
def ReadConf (pbConfigFile : String) (oracle : ConfFile) (c : PlaybookConfig) :
    Except GoErr PlaybookConfig :=
  if pbConfigFile = "" then .ok c
  else match oracle.readFile with
    | .error e => .error e
    | .ok _ => oracle.unmarshal c

/-- Helper: field-level characterization of readEnvsStep1. -/
theorem readEnvsStep1_fields (env : String → String) (c : PlaybookConfig) :
    (readEnvsStep1 env c).playbook =
      (if env "PLAYBOOK" ≠ "" then env "PLAYBOOK" else c.playbook) ∧
    (readEnvsStep1 env c).sshPrivateKeyFile =
      (if env "SSH_PRIVATE_KEY_FILE" ≠ "" then env "SSH_PRIVATE_KEY_FILE"
        else c.sshPrivateKeyFile) ∧
    (readEnvsStep1 env c).remoteUser =
      (if env "ANSIBLE_REMOTE_USER" ≠ "" then env "ANSIBLE_REMOTE_USER"
        else c.remoteUser) ∧
    (readEnvsStep1 env c).tempDirPath =
      (if env "TMP_DIR_PATH" ≠ "" then env "TMP_DIR_PATH" else c.tempDirPath) ∧
    (∀ n, env "VERBOSE_LEVEL" ≠ "" → goAtoi (env "VERBOSE_LEVEL") = some n →
      (readEnvsStep1 env c).verboseLevel = n) ∧
    (readEnvsStep1 env c).inventoryFile = c.inventoryFile ∧
    (readEnvsStep1 env c).limitHost = c.limitHost ∧
    (readEnvsStep1 env c).extraVarsFile = c.extraVarsFile ∧
    (readEnvsStep1 env c).playbookTimeout = c.playbookTimeout ∧
    (readEnvsStep1 env c).ansibleTags = c.ansibleTags ∧
    (readEnvsStep1 env c).ansibleSkipTags = c.ansibleSkipTags ∧
    (readEnvsStep1 env c).extraArgs = c.extraArgs ∧
    (readEnvsStep1 env c).windowsGroup = c.windowsGroup ∧
    (readEnvsStep1 env c).virtualEnvPath = c.virtualEnvPath ∧
    (readEnvsStep1 env c).image = c.image := by
  refine ⟨rfl, rfl, rfl, rfl, ?_, rfl, rfl, rfl, rfl, rfl, rfl, rfl, rfl, rfl, rfl⟩
  intro n h1 h2
  show (if env "VERBOSE_LEVEL" ≠ "" then _ else _) = n
  rw [if_pos h1, h2]

/-- Helper: on success, the inventory section changes only the inventory-file
field, and with INVENTORY_FILE the sole inventory source it sets that field
to the environment value. -/
theorem readEnvsInventory_ok (env : String → String) (fs : EnvFs)
    (c c' : PlaybookConfig) (h : readEnvsInventory env fs c = .ok c') :
    c'.playbook = c.playbook ∧ c'.verboseLevel = c.verboseLevel ∧
    c'.sshPrivateKeyFile = c.sshPrivateKeyFile ∧ c'.remoteUser = c.remoteUser ∧
    c'.limitHost = c.limitHost ∧ c'.extraVarsFile = c.extraVarsFile ∧
    c'.playbookTimeout = c.playbookTimeout ∧ c'.ansibleTags = c.ansibleTags ∧
    c'.ansibleSkipTags = c.ansibleSkipTags ∧ c'.extraArgs = c.extraArgs ∧
    c'.windowsGroup = c.windowsGroup ∧ c'.virtualEnvPath = c.virtualEnvPath ∧
    c'.image = c.image ∧ c'.tempDirPath = c.tempDirPath ∧
    (env "INVENTORY_FILE" ≠ "" → env "INVENTORY_CONTENTS" = "" →
      env "INVENTORY_URL" = "" → c'.inventoryFile = env "INVENTORY_FILE") := by
  unfold readEnvsInventory at h
  by_cases hcts : env "INVENTORY_CONTENTS" ≠ ""
  · rcases hw : fs.writeFile "./hosts-INVENTORY" (env "INVENTORY_CONTENTS") with _ | e <;>
      by_cases hf : env "INVENTORY_FILE" ≠ "" <;>
      by_cases hurl : env "INVENTORY_URL" ≠ "" <;>
      simp_all <;> (try subst h) <;> simp_all
  · by_cases hf : env "INVENTORY_FILE" ≠ "" <;>
      by_cases hurl : env "INVENTORY_URL" ≠ "" <;>
      simp_all <;> (try subst h) <;> simp_all

/-- Helper: on success, the extra-vars section changes only the extra-vars
field, and with EXTRA_VARS_FILE the sole source it sets that field to the
environment value. -/
theorem readEnvsVars_ok (env : String → String) (fs : EnvFs)
    (c c' : PlaybookConfig) (h : readEnvsVars env fs c = .ok c') :
    c'.playbook = c.playbook ∧ c'.verboseLevel = c.verboseLevel ∧
    c'.sshPrivateKeyFile = c.sshPrivateKeyFile ∧ c'.remoteUser = c.remoteUser ∧
    c'.limitHost = c.limitHost ∧ c'.inventoryFile = c.inventoryFile ∧
    c'.playbookTimeout = c.playbookTimeout ∧ c'.ansibleTags = c.ansibleTags ∧
    c'.ansibleSkipTags = c.ansibleSkipTags ∧ c'.extraArgs = c.extraArgs ∧
    c'.windowsGroup = c.windowsGroup ∧ c'.virtualEnvPath = c.virtualEnvPath ∧
    c'.image = c.image ∧ c'.tempDirPath = c.tempDirPath ∧
    (env "EXTRA_VARS_FILE" ≠ "" → env "EXTRA_VARS_CONTENTS" = "" →
      c'.extraVarsFile = env "EXTRA_VARS_FILE") := by
  unfold readEnvsVars at h
  by_cases hcts : env "EXTRA_VARS_CONTENTS" ≠ ""
  · rcases hw : fs.writeFile "PLAYBOOK-extravars" (env "EXTRA_VARS_CONTENTS") with _ | e <;>
      by_cases hf : env "EXTRA_VARS_FILE" ≠ "" <;>
      simp_all <;> (try subst h) <;> simp_all
  · by_cases hf : env "EXTRA_VARS_FILE" ≠ "" <;>
      simp_all <;> (try subst h) <;> simp_all

/-- Helper: on success, the timeout section changes only the playbook-timeout
field, setting it to the parsed environment value when one is present. -/
theorem readEnvsTimeout_ok (env : String → String) (c c' : PlaybookConfig)
    (h : readEnvsTimeout env c = .ok c') :
    c'.playbook = c.playbook ∧ c'.verboseLevel = c.verboseLevel ∧
    c'.sshPrivateKeyFile = c.sshPrivateKeyFile ∧ c'.remoteUser = c.remoteUser ∧
    c'.limitHost = c.limitHost ∧ c'.inventoryFile = c.inventoryFile ∧
    c'.extraVarsFile = c.extraVarsFile ∧ c'.ansibleTags = c.ansibleTags ∧
    c'.ansibleSkipTags = c.ansibleSkipTags ∧ c'.extraArgs = c.extraArgs ∧
    c'.windowsGroup = c.windowsGroup ∧ c'.virtualEnvPath = c.virtualEnvPath ∧
    c'.image = c.image ∧ c'.tempDirPath = c.tempDirPath ∧
    (∀ n, env "ANSIBLE_PLAYBOOK_TIMEOUT" ≠ "" →
      goAtoi (env "ANSIBLE_PLAYBOOK_TIMEOUT") = some n → c'.playbookTimeout = n) := by
  unfold readEnvsTimeout at h
  by_cases ht : env "ANSIBLE_PLAYBOOK_TIMEOUT" ≠ ""
  · rcases hn : goAtoi (env "ANSIBLE_PLAYBOOK_TIMEOUT") with _ | m <;>
      simp_all <;> (try subst h) <;> simp_all
  · simp_all <;> (try subst h) <;> simp_all

/-- Helper: field-level characterization of readEnvsTail. -/
theorem readEnvsTail_fields (env : String → String) (c : PlaybookConfig) :
    (readEnvsTail env c).playbook = c.playbook ∧
    (readEnvsTail env c).verboseLevel = c.verboseLevel ∧
    (readEnvsTail env c).sshPrivateKeyFile = c.sshPrivateKeyFile ∧
    (readEnvsTail env c).remoteUser = c.remoteUser ∧
    (readEnvsTail env c).limitHost = c.limitHost ∧
    (readEnvsTail env c).inventoryFile = c.inventoryFile ∧
    (readEnvsTail env c).extraVarsFile = c.extraVarsFile ∧
    (readEnvsTail env c).playbookTimeout = c.playbookTimeout ∧
    (readEnvsTail env c).tempDirPath = c.tempDirPath ∧
    (readEnvsTail env c).ansibleTags =
      (if env "ANSIBLE_TAGS" ≠ "" then env "ANSIBLE_TAGS" else c.ansibleTags) ∧
    (readEnvsTail env c).ansibleSkipTags =
      (if env "ANSIBLE_SKIP_TAGS" ≠ "" then env "ANSIBLE_SKIP_TAGS" else c.ansibleSkipTags) ∧
    (readEnvsTail env c).extraArgs =
      (if env "EXTRA_ARGS" ≠ "" then env "EXTRA_ARGS" else c.extraArgs) ∧
    (readEnvsTail env c).windowsGroup =
      (if env "WINDOWS_GROUP" ≠ "" then env "WINDOWS_GROUP" else c.windowsGroup) ∧
    (readEnvsTail env c).virtualEnvPath =
      (if env "VIRTUAL_ENV" ≠ "" then env "VIRTUAL_ENV" else c.virtualEnvPath) ∧
    (readEnvsTail env c).image =
      (if env "CONTAINER_IMAGE" ≠ "" then env "CONTAINER_IMAGE" else c.image) :=
  ⟨rfl, rfl, rfl, rfl, rfl, rfl, rfl, rfl, rfl, rfl, rfl, rfl, rfl, rfl, rfl⟩

/-- Claim C4: environment values take precedence over file-loaded values.
For every config file outcome (ReadConf succeeding with any record c1) and
every recognized environment variable that is set non-empty, the field after
ReadEnvs equals the environment value: directly for the string-valued
variables, through Atoi for the two integer variables, and for the
inventory/extra-vars file variables whenever they are the only source of
their group (otherwise ReadEnvs fails instead of merging). -/
theorem env_overrides_file (pbConfigFile : String) (oracle : ConfFile)
    (env : String → String) (fs : EnvFs) (c0 c1 c' : PlaybookConfig)
    (hconf : ReadConf pbConfigFile oracle c0 = .ok c1)
    (henv : ReadEnvs env fs c1 = .ok c') :
    (env "PLAYBOOK" ≠ "" → c'.playbook = env "PLAYBOOK") ∧
    (∀ n, env "VERBOSE_LEVEL" ≠ "" → goAtoi (env "VERBOSE_LEVEL") = some n →
      c'.verboseLevel = n) ∧
    (env "SSH_PRIVATE_KEY_FILE" ≠ "" →
      c'.sshPrivateKeyFile = env "SSH_PRIVATE_KEY_FILE") ∧
    (env "ANSIBLE_REMOTE_USER" ≠ "" → c'.remoteUser = env "ANSIBLE_REMOTE_USER") ∧
    (env "TMP_DIR_PATH" ≠ "" → c'.tempDirPath = env "TMP_DIR_PATH") ∧
    (env "INVENTORY_FILE" ≠ "" → env "INVENTORY_CONTENTS" = "" →
      env "INVENTORY_URL" = "" → c'.inventoryFile = env "INVENTORY_FILE") ∧
    (env "LIMIT_HOST" ≠ "" → c'.limitHost = env "LIMIT_HOST") ∧
    (env "EXTRA_VARS_FILE" ≠ "" → env "EXTRA_VARS_CONTENTS" = "" →
      c'.extraVarsFile = env "EXTRA_VARS_FILE") ∧
    (∀ n, env "ANSIBLE_PLAYBOOK_TIMEOUT" ≠ "" →
      goAtoi (env "ANSIBLE_PLAYBOOK_TIMEOUT") = some n → c'.playbookTimeout = n) ∧
    (env "ANSIBLE_TAGS" ≠ "" → c'.ansibleTags = env "ANSIBLE_TAGS") ∧
    (env "ANSIBLE_SKIP_TAGS" ≠ "" → c'.ansibleSkipTags = env "ANSIBLE_SKIP_TAGS") ∧
    (env "EXTRA_ARGS" ≠ "" → c'.extraArgs = env "EXTRA_ARGS") ∧
    (env "WINDOWS_GROUP" ≠ "" → c'.windowsGroup = env "WINDOWS_GROUP") ∧
    (env "VIRTUAL_ENV" ≠ "" → c'.virtualEnvPath = env "VIRTUAL_ENV") ∧
    (env "CONTAINER_IMAGE" ≠ "" → c'.image = env "CONTAINER_IMAGE") := by
  clear hconf
  simp only [ReadEnvs] at henv
  cases hTmp : readEnvsTempDir fs (readEnvsStep1 env c1) with
  | some e =>
      rw [hTmp] at henv
      exact Except.noConfusion henv
  | none =>
  simp only [hTmp] at henv
  cases hInv : readEnvsInventory env fs (readEnvsStep1 env c1) with
  | error e =>
      rw [hInv] at henv
      exact Except.noConfusion henv
  | ok c2 =>
  simp only [hInv] at henv
  cases hVars : readEnvsVars env fs
      { c2 with limitHost := if env "LIMIT_HOST" ≠ "" then env "LIMIT_HOST" else c2.limitHost } with
  | error e =>
      rw [hVars] at henv
      exact Except.noConfusion henv
  | ok c3 =>
  simp only [hVars] at henv
  cases hTim : readEnvsTimeout env c3 with
  | error e =>
      rw [hTim] at henv
      exact Except.noConfusion henv
  | ok c4 =>
  simp only [hTim] at henv
  injection henv with hc'
  subst hc'
  obtain ⟨s_pb, s_ssh, s_ru, s_tmp, s_vl, s_inv, s_lh, s_evf, s_pt, s_tags,
    s_stags, s_ea, s_wg, s_venv, s_img⟩ := readEnvsStep1_fields env c1
  obtain ⟨i_pb, i_vl, i_ssh, i_ru, i_lh, i_evf, i_pt, i_tags, i_stags, i_ea,
    i_wg, i_venv, i_img, i_tmp, i_set⟩ :=
    readEnvsInventory_ok env fs (readEnvsStep1 env c1) c2 hInv
  obtain ⟨v_pb, v_vl, v_ssh, v_ru, v_lh, v_inv, v_pt, v_tags, v_stags, v_ea,
    v_wg, v_venv, v_img, v_tmp, v_set⟩ :=
    readEnvsVars_ok env fs
      { c2 with limitHost := if env "LIMIT_HOST" ≠ "" then env "LIMIT_HOST" else c2.limitHost }
      c3 hVars
  obtain ⟨t_pb, t_vl, t_ssh, t_ru, t_lh, t_inv, t_evf, t_tags, t_stags, t_ea,
    t_wg, t_venv, t_img, t_tmp, t_set⟩ := readEnvsTimeout_ok env c3 c4 hTim
  obtain ⟨l_pb, l_vl, l_ssh, l_ru, l_lh, l_inv, l_evf, l_pt, l_tmp, l_tags,
    l_stags, l_ea, l_wg, l_venv, l_img⟩ := readEnvsTail_fields env c4
  refine ⟨?_, ?_, ?_, ?_, ?_, ?_, ?_, ?_, ?_, ?_, ?_, ?_, ?_, ?_, ?_⟩
  · intro h
    rw [l_pb, t_pb, v_pb]
    show c2.playbook = _
    rw [i_pb, s_pb, if_pos h]
  · intro n h1 h2
    rw [l_vl, t_vl, v_vl]
    show c2.verboseLevel = n
    rw [i_vl]
    exact s_vl n h1 h2
  · intro h
    rw [l_ssh, t_ssh, v_ssh]
    show c2.sshPrivateKeyFile = _
    rw [i_ssh, s_ssh, if_pos h]
  · intro h
    rw [l_ru, t_ru, v_ru]
    show c2.remoteUser = _
    rw [i_ru, s_ru, if_pos h]
  · intro h
    rw [l_tmp, t_tmp, v_tmp]
    show c2.tempDirPath = _
    rw [i_tmp, s_tmp, if_pos h]
  · intro hf hc hu
    rw [l_inv, t_inv, v_inv]
    show c2.inventoryFile = _
    exact i_set hf hc hu
  · intro h
    rw [l_lh, t_lh, v_lh]
    show (if env "LIMIT_HOST" ≠ "" then env "LIMIT_HOST" else c2.limitHost) = _
    rw [if_pos h]
  · intro hf hc
    rw [l_evf, t_evf]
    exact v_set hf hc
  · intro n h1 h2
    rw [l_pt]
    exact t_set n h1 h2
  · intro h
    rw [l_tags, if_pos h]
  · intro h
    rw [l_stags, if_pos h]
  · intro h
    rw [l_ea, if_pos h]
  · intro h
    rw [l_wg, if_pos h]
  · intro h
    rw [l_venv, if_pos h]
  · intro h
    rw [l_img, if_pos h]

/-- Concrete environment for exercising ReadEnvs: a file-backed config is
overridden on four recognized variables. -/
def envC4 : String → String := fun k =>
  if k = "PLAYBOOK" then "./p.yml"
  else if k = "VERBOSE_LEVEL" then "3"
  else if k = "INVENTORY_FILE" then "./h.yml"
  else if k = "CONTAINER_IMAGE" then "img"
  else ""

/-- Concrete ReadEnvs oracle where the temp directory exists and writes
succeed. -/
def fsC4 : EnvFs :=
  { cwd := "/w", dirExists := fun _ => true, ensureDir := fun _ => none,
    writeFile := fun _ _ => none }

/-- Concrete ReadConf oracle: the file reads and unmarshals as a no-op. -/
def oracleC4 : ConfFile := { readFile := .ok (), unmarshal := fun c => .ok c }

/-- Result of ReadEnvs on the concrete C4 inputs. -/
def cfgC4res : PlaybookConfig :=
  { NewPlaybookConfig with
    playbook := "./p.yml"
    verboseLevel := 3
    inventoryFile := "./h.yml"
    image := "img" }

/-- Witness for C4: the theorem applied to a config whose file phase loaded
NewPlaybookConfig (playbook empty, verbose-level 1, image empty) and whose
environment sets PLAYBOOK, VERBOSE_LEVEL=3, INVENTORY_FILE and
CONTAINER_IMAGE: each of those fields ends up with the environment value. -/
theorem env_overrides_file_witness :
    cfgC4res.playbook = envC4 "PLAYBOOK" ∧
    cfgC4res.verboseLevel = 3 ∧
    cfgC4res.inventoryFile = envC4 "INVENTORY_FILE" ∧
    cfgC4res.image = envC4 "CONTAINER_IMAGE" := by
  have h := env_overrides_file "" oracleC4 envC4 fsC4 NewPlaybookConfig
    NewPlaybookConfig cfgC4res rfl rfl
  exact ⟨h.1 (by decide), h.2.1 3 (by decide) (by decide),
    h.2.2.2.2.2.1 (by decide) rfl rfl,
    h.2.2.2.2.2.2.2.2.2.2.2.2.2.2 (by decide)⟩

/-- Claim C9: with both INVENTORY_FILE and INVENTORY_CONTENTS set non-empty
(and the side effects that precede the check succeeding: the temp directory
phase and the write of the contents file), ReadEnvs fails with the InputError
whose message is "only one inventory environment variable is allowed", which
contains the words "only one inventory environment variable". -/
theorem readEnvs_both_inventory_sources_error
    (env : String → String) (fs : EnvFs) (c : PlaybookConfig)
    (hf : env "INVENTORY_FILE" ≠ "") (hc : env "INVENTORY_CONTENTS" ≠ "")
    (htmp : readEnvsTempDir fs (readEnvsStep1 env c) = none)
    (hw : fs.writeFile "./hosts-INVENTORY" (env "INVENTORY_CONTENTS") = none) :
    ReadEnvs env fs c =
      .error (.inputError "only one inventory environment variable is allowed") ∧
    strContains "only one inventory environment variable is allowed"
      "only one inventory environment variable" = true := by
  constructor
  · have hinv : readEnvsInventory env fs (readEnvsStep1 env c) =
        .error (.inputError "only one inventory environment variable is allowed") := by
      unfold readEnvsInventory
      simp [hf, hc, hw]
    simp only [ReadEnvs, htmp, hinv]
  · decide

/-- Concrete environment for C9: both inventory sources set. -/
def envC9 : String → String := fun k =>
  if k = "INVENTORY_FILE" then "./h"
  else if k = "INVENTORY_CONTENTS" then "localhost" else ""

/-- Witness for C9: the theorem applied to the concrete two-source
environment. -/
theorem readEnvs_both_inventory_sources_error_witness :
    ReadEnvs envC9 fsC4 NewPlaybookConfig =
      .error (.inputError "only one inventory environment variable is allowed") ∧
    strContains "only one inventory environment variable is allowed"
      "only one inventory environment variable" = true :=
  readEnvs_both_inventory_sources_error envC9 fsC4 NewPlaybookConfig
    (by decide) (by decide) rfl rfl

/-- Tilde expansion used for the virtual-env and SSH-key paths: when the path
starts with "~", its first (leading) occurrence is replaced by HOME. -/
def expandTilde (home s : String) : String :=
  match s.data with
  | '~' :: rest => home ++ String.mk rest
  | _ => s

/-- Playbook section of input validation: required, sanitized, relative to
the current directory, and existing as a file. The sanitize function is a
parameter because the cmd and cmd/api copies use their own sanitizePath. -/
def checkPlaybookBlock (fs : Fs) (san : String → Option GoErr)
    (c : PlaybookConfig) : Option GoErr :=
  if c.playbook = "" then some (.inputError "playbook is required")
  else match san c.playbook with
    | some e => some e
    | none =>
      if !checkRelativePath c.playbook then
        some (.inputError "playbook must have relative path to current directory")
      else match pathExists fs c.playbook false with
        | (false, e) => some (e.getD (.osError "path does not exist"))
        | (true, _) => none

/-- Inventory-file section of input validation: same shape as the playbook
section. -/
def checkInventoryBlock (fs : Fs) (san : String → Option GoErr)
    (c : PlaybookConfig) : Option GoErr :=
  if c.inventoryFile = "" then some (.inputError "inventory parameter is required")
  else match san c.inventoryFile with
    | some e => some e
    | none =>
      if !checkRelativePath c.inventoryFile then
        some (.inputError "inventory-file must have relative path to current directory")
      else match pathExists fs c.inventoryFile false with
        | (false, e) => some (e.getD (.osError "path does not exist"))
        | (true, _) => none

/-- Extra-vars section of input validation, applied only when the field is
non-empty. -/
def checkExtraVarsBlock (fs : Fs) (san : String → Option GoErr)
    (c : PlaybookConfig) : Option GoErr :=
  if c.extraVarsFile ≠ "" then
    match san c.extraVarsFile with
    | some e => some e
    | none =>
      if !checkRelativePath c.extraVarsFile then
        some (.inputError "extra-vars file must have relative path to current directory")
      else match pathExists fs c.extraVarsFile false with
        | (false, e) => some (e.getD (.osError "path does not exist"))
        | (true, _) => none
  else none

/-- Execution-mode conflict step of the cmd package's ValidateInputs
(config.go, lines counting venv and image): when BOTH virtual-env-path and
image are set, the virtual environment is unset unconditionally - the
execution-type field is never consulted and no error is returned. -/
def resolveExecConflict (c : PlaybookConfig) : PlaybookConfig :=
  let execTypeCount :=
    (if c.virtualEnvPath ≠ "" then 1 else 0) + (if c.image ≠ "" then 1 else 0)
  if execTypeCount > 1 then { c with virtualEnvPath := "" } else c

/-- Execution-mode conflict step of the legacy cmd/api validateInputs
(playbook.go): when both are set, the execution-type field picks the winner
("container" clears virtual-env-path, "venv" clears image) and any other
value is an InputError. -/
def resolveExecConflictApi (c : PlaybookConfig) : Except GoErr PlaybookConfig :=
  let execTypeCount :=
    (if c.virtualEnvPath ≠ "" then 1 else 0) + (if c.image ≠ "" then 1 else 0)
  if execTypeCount > 1 then
    if c.executionType = "container" then .ok { c with virtualEnvPath := "" }
    else if c.executionType = "venv" then .ok { c with image := "" }
    else .error (.inputError
      "python_path and container_image are mutually exclusive (only specify one or set execution-type to container or venv)")
  else .ok c

/-- Virtual-environment section of input validation: tilde expansion into the
field, sanitization, existence of the absolute path as a directory, and stat
of the two venv binaries (an IsNotExist stat error is returned as-is). -/
def venvBlock (fs : Fs) (san : String → Option GoErr) (c : PlaybookConfig) :
    Except GoErr PlaybookConfig :=
  if c.virtualEnvPath ≠ "" then
    let vp := expandTilde fs.home c.virtualEnvPath
    match san vp with
    | some e => .error e
    | none =>
      match pathExists fs (fs.abs vp) true with
      | (false, e) => .error (e.getD (.osError "path does not exist"))
      | (true, _) =>
        if !fs.statExists (joinPath vp "bin/ansible-playbook") then
          .error (.osError "stat ansible-playbook: no such file or directory")
        else if !fs.statExists (joinPath vp "bin/ansible-inventory") then
          .error (.osError "stat ansible-inventory: no such file or directory")
        else .ok { c with virtualEnvPath := vp }
  else .ok c

/-- SSH-private-key section of input validation: tilde expansion,
sanitization, existence of the absolute path as a file, and normalization of
the field to that absolute path. -/
def sshKeyBlock (fs : Fs) (san : String → Option GoErr) (c : PlaybookConfig) :
    Except GoErr PlaybookConfig :=
  if c.sshPrivateKeyFile ≠ "" then
    let kp := expandTilde fs.home c.sshPrivateKeyFile
    match san kp with
    | some e => .error e
    | none =>
      match pathExists fs (fs.abs kp) false with
      | (false, e) => .error (e.getD (.osError "path does not exist"))
      | (true, _) => .ok { c with sshPrivateKeyFile := fs.abs kp }
  else .ok c

/-- Verbose-level clamp opening ValidateInputs: a level outside [0,7] is
reset to 1 with a warning; the subsequent log-level switch is a pure logging
side effect and is not modelled. -/
def clampVerbose (c : PlaybookConfig) : PlaybookConfig :=
  if c.verboseLevel < 0 ∨ 7 < c.verboseLevel then { c with verboseLevel := 1 } else c

/-- ValidateInputs of the cmd package (config.go) after the verbose clamp:
playbook, inventory and extra-vars sections, the unconditional conflict
resolution, then the venv and SSH-key sections. -/
def ValidateInputsAfterClamp (fs : Fs) (c : PlaybookConfig) :
    Except GoErr PlaybookConfig :=
  match checkPlaybookBlock fs (sanitizePath fs.evalSymlinks) c with
  | some e => .error e
  | none =>
  match checkInventoryBlock fs (sanitizePath fs.evalSymlinks) c with
  | some e => .error e
  | none =>
  match checkExtraVarsBlock fs (sanitizePath fs.evalSymlinks) c with
  | some e => .error e
  | none =>
  match venvBlock fs (sanitizePath fs.evalSymlinks) (resolveExecConflict c) with
  | .error e => .error e
  | .ok c2 => sshKeyBlock fs (sanitizePath fs.evalSymlinks) c2

/-- ValidateInputs of the cmd package (config.go). -/
def ValidateInputs (fs : Fs) (c : PlaybookConfig) : Except GoErr PlaybookConfig :=
  ValidateInputsAfterClamp fs (clampVerbose c)

/-- validateInputs of the legacy cmd/api copy (playbook.go) after the verbose
clamp: identical sections, but the conflict step consults execution-type and
can fail, and the legacy sanitizePath message is used. -/
def validateInputsAfterClamp (fs : Fs) (c : PlaybookConfig) :
    Except GoErr PlaybookConfig :=
  match checkPlaybookBlock fs (sanitizePathMain fs.evalSymlinks) c with
  | some e => .error e
  | none =>
  match checkInventoryBlock fs (sanitizePathMain fs.evalSymlinks) c with
  | some e => .error e
  | none =>
  match checkExtraVarsBlock fs (sanitizePathMain fs.evalSymlinks) c with
  | some e => .error e
  | none =>
  match resolveExecConflictApi c with
  | .error e => .error e
  | .ok c1 =>
  match venvBlock fs (sanitizePathMain fs.evalSymlinks) c1 with
  | .error e => .error e
  | .ok c2 => sshKeyBlock fs (sanitizePathMain fs.evalSymlinks) c2

/-- validateInputs of the legacy cmd/api copy (playbook.go). -/
def validateInputs (fs : Fs) (c : PlaybookConfig) : Except GoErr PlaybookConfig :=
  validateInputsAfterClamp fs (clampVerbose c)

/-- Helper: with an empty virtual-env path, the venv section is a no-op. -/
theorem venvBlock_empty (fs : Fs) (san : String → Option GoErr)
    (c : PlaybookConfig) (hv : c.virtualEnvPath = "") :
    venvBlock fs san c = .ok c := by
  unfold venvBlock
  rw [hv]
  simp

/-- Helper: a successful venv section keeps every field except the
virtual-env path, and maps an empty virtual-env path to itself. -/
theorem venvBlock_fields (fs : Fs) (san : String → Option GoErr)
    (c c' : PlaybookConfig) (h : venvBlock fs san c = .ok c') :
    c'.image = c.image ∧ c'.verboseLevel = c.verboseLevel ∧
    c'.playbook = c.playbook ∧ c'.inventoryFile = c.inventoryFile ∧
    c'.sshPrivateKeyFile = c.sshPrivateKeyFile ∧
    (c.virtualEnvPath = "" → c' = c) := by
  unfold venvBlock at h
  by_cases hv : c.virtualEnvPath ≠ ""
  · rw [if_pos hv] at h
    simp only at h
    cases hs : san (expandTilde fs.home c.virtualEnvPath) with
    | some e =>
        simp only [hs] at h
        exact Except.noConfusion h
    | none =>
    simp only [hs] at h
    rcases hp : pathExists fs (fs.abs (expandTilde fs.home c.virtualEnvPath)) true
      with ⟨b, e2⟩
    cases b
    · simp only [hp] at h
      exact Except.noConfusion h
    · simp only [hp] at h
      by_cases h1 : fs.statExists (joinPath (expandTilde fs.home c.virtualEnvPath)
          "bin/ansible-playbook")
      · by_cases h2 : fs.statExists (joinPath (expandTilde fs.home c.virtualEnvPath)
            "bin/ansible-inventory")
        · simp only [h1, h2] at h
          injection h with h3
          subst h3
          refine ⟨rfl, rfl, rfl, rfl, rfl, ?_⟩
          intro habs
          exact absurd habs hv
        · simp only [h1, h2] at h
          exact Except.noConfusion h
      · simp only [h1] at h
        exact Except.noConfusion h
  · push_neg at hv
    rw [if_neg (fun hcon => hcon hv)] at h
    injection h with h3
    subst h3
    exact ⟨rfl, rfl, rfl, rfl, rfl, fun _ => rfl⟩

/-- Helper: a successful SSH-key section keeps every field except the
SSH-private-key path. -/
theorem sshKeyBlock_fields (fs : Fs) (san : String → Option GoErr)
    (c c' : PlaybookConfig) (h : sshKeyBlock fs san c = .ok c') :
    c'.virtualEnvPath = c.virtualEnvPath ∧ c'.image = c.image ∧
    c'.verboseLevel = c.verboseLevel ∧ c'.playbook = c.playbook ∧
    c'.inventoryFile = c.inventoryFile := by
  unfold sshKeyBlock at h
  by_cases hk : c.sshPrivateKeyFile ≠ ""
  · rw [if_pos hk] at h
    simp only at h
    cases hs : san (expandTilde fs.home c.sshPrivateKeyFile) with
    | some e =>
        simp only [hs] at h
        exact Except.noConfusion h
    | none =>
    simp only [hs] at h
    rcases hp : pathExists fs (fs.abs (expandTilde fs.home c.sshPrivateKeyFile)) false
      with ⟨b, e2⟩
    cases b
    · simp only [hp] at h
      exact Except.noConfusion h
    · simp only [hp] at h
      injection h with h3
      subst h3
      exact ⟨rfl, rfl, rfl, rfl, rfl⟩
  · rw [if_neg hk] at h
    injection h with h3
    subst h3
    exact ⟨rfl, rfl, rfl, rfl, rfl⟩

/-- Helper: the unconditional conflict step of the cmd package keeps every
field except the virtual-env path, which it empties whenever both modes are
set. -/
theorem resolveExecConflict_both (c : PlaybookConfig)
    (hv : c.virtualEnvPath ≠ "") (hi : c.image ≠ "") :
    resolveExecConflict c = { c with virtualEnvPath := "" } := by
  unfold resolveExecConflict
  simp [hv, hi]

/-- Helper: the conflict step never changes the verbose level or the image. -/
theorem resolveExecConflict_fields (c : PlaybookConfig) :
    (resolveExecConflict c).verboseLevel = c.verboseLevel ∧
    (resolveExecConflict c).image = c.image ∧
    (resolveExecConflict c).playbook = c.playbook := by
  simp only [resolveExecConflict]
  split_ifs <;> exact ⟨rfl, rfl, rfl⟩

/-- Helper: the verbose clamp touches no field but the verbose level. -/
theorem clampVerbose_fields (c : PlaybookConfig) :
    (clampVerbose c).virtualEnvPath = c.virtualEnvPath ∧
    (clampVerbose c).image = c.image ∧
    (clampVerbose c).executionType = c.executionType := by
  unfold clampVerbose
  split_ifs <;> exact ⟨rfl, rfl, rfl⟩

/-- Helper: when both execution modes are set, a successful run of the cmd
package's post-clamp validation ends with the virtual-env path empty and the
image kept. -/
theorem validateAfterClamp_conflict (fs : Fs) (c : PlaybookConfig)
    (hv : c.virtualEnvPath ≠ "") (hi : c.image ≠ "") (c' : PlaybookConfig)
    (h : ValidateInputsAfterClamp fs c = .ok c') :
    c'.virtualEnvPath = "" ∧ c'.image = c.image := by
  unfold ValidateInputsAfterClamp at h
  cases hpb : checkPlaybookBlock fs (sanitizePath fs.evalSymlinks) c with
  | some e =>
      simp only [hpb] at h
      exact Except.noConfusion h
  | none =>
  simp only [hpb] at h
  cases hib : checkInventoryBlock fs (sanitizePath fs.evalSymlinks) c with
  | some e =>
      simp only [hib] at h
      exact Except.noConfusion h
  | none =>
  simp only [hib] at h
  cases hev : checkExtraVarsBlock fs (sanitizePath fs.evalSymlinks) c with
  | some e =>
      simp only [hev] at h
      exact Except.noConfusion h
  | none =>
  simp only [hev] at h
  cases hvb : venvBlock fs (sanitizePath fs.evalSymlinks) (resolveExecConflict c) with
  | error e =>
      simp only [hvb] at h
      exact Except.noConfusion h
  | ok c2 =>
  simp only [hvb] at h
  rw [resolveExecConflict_both c hv hi,
    venvBlock_empty fs (sanitizePath fs.evalSymlinks) _ rfl] at hvb
  injection hvb with hc2
  subst hc2
  obtain ⟨p1, p2, _, _, _⟩ := sshKeyBlock_fields fs _ _ _ h
  exact ⟨by rw [p1], by rw [p2]⟩

/-- Helper: a successful run of the legacy post-clamp validation factors
through its conflict, venv and SSH-key steps. -/
theorem validateInputsAfterClamp_ok (fs : Fs) (c c' : PlaybookConfig)
    (h : validateInputsAfterClamp fs c = .ok c') :
    ∃ c1 c2, resolveExecConflictApi c = .ok c1 ∧
      venvBlock fs (sanitizePathMain fs.evalSymlinks) c1 = .ok c2 ∧
      sshKeyBlock fs (sanitizePathMain fs.evalSymlinks) c2 = .ok c' := by
  unfold validateInputsAfterClamp at h
  cases hpb : checkPlaybookBlock fs (sanitizePathMain fs.evalSymlinks) c with
  | some e =>
      simp only [hpb] at h
      exact Except.noConfusion h
  | none =>
  simp only [hpb] at h
  cases hib : checkInventoryBlock fs (sanitizePathMain fs.evalSymlinks) c with
  | some e =>
      simp only [hib] at h
      exact Except.noConfusion h
  | none =>
  simp only [hib] at h
  cases hev : checkExtraVarsBlock fs (sanitizePathMain fs.evalSymlinks) c with
  | some e =>
      simp only [hev] at h
      exact Except.noConfusion h
  | none =>
  simp only [hev] at h
  cases hcf : resolveExecConflictApi c with
  | error e =>
      simp only [hcf] at h
      exact Except.noConfusion h
  | ok c1 =>
  simp only [hcf] at h
  cases hvb : venvBlock fs (sanitizePathMain fs.evalSymlinks) c1 with
  | error e =>
      simp only [hvb] at h
      exact Except.noConfusion h
  | ok c2 =>
  simp only [hvb] at h
  exact ⟨c1, c2, rfl, hvb, h⟩

/-- Helper: the cmd package's post-clamp validation never changes the verbose
level of a config it accepts. -/
theorem validateAfterClamp_verbose (fs : Fs) (c c' : PlaybookConfig)
    (h : ValidateInputsAfterClamp fs c = .ok c') :
    c'.verboseLevel = c.verboseLevel := by
  unfold ValidateInputsAfterClamp at h
  cases hpb : checkPlaybookBlock fs (sanitizePath fs.evalSymlinks) c with
  | some e =>
      simp only [hpb] at h
      exact Except.noConfusion h
  | none =>
  simp only [hpb] at h
  cases hib : checkInventoryBlock fs (sanitizePath fs.evalSymlinks) c with
  | some e =>
      simp only [hib] at h
      exact Except.noConfusion h
  | none =>
  simp only [hib] at h
  cases hev : checkExtraVarsBlock fs (sanitizePath fs.evalSymlinks) c with
  | some e =>
      simp only [hev] at h
      exact Except.noConfusion h
  | none =>
  simp only [hev] at h
  cases hvb : venvBlock fs (sanitizePath fs.evalSymlinks) (resolveExecConflict c) with
  | error e =>
      simp only [hvb] at h
      exact Except.noConfusion h
  | ok c2 =>
  simp only [hvb] at h
  obtain ⟨_, hv2, _, _, _⟩ := venvBlock_fields fs _ _ _ hvb
  obtain ⟨_, _, hv3, _, _⟩ := sshKeyBlock_fields fs _ _ _ h
  rw [hv3, hv2, (resolveExecConflict_fields c).1]

/-- Path-validation oracle on which every path exists as a plain file,
symlinks resolve to themselves, Abs is the identity and HOME is /home/u. -/
def fsOK : Fs :=
  { evalSymlinks := fun s => .ok s, statExists := fun _ => true,
    isDir := fun _ => false, abs := fun s => s, home := "/home/u" }

/-- Path-validation oracle like fsOK except that /venv is a directory. -/
def fsVenv : Fs := { fsOK with isDir := fun p => p = "/venv" }

/-- Concrete configuration with BOTH a virtual-env path and an image and no
execution-type override. -/
def cfgBoth : PlaybookConfig :=
  { NewPlaybookConfig with
    playbook := "./site.yml"
    inventoryFile := "./hosts.yml"
    virtualEnvPath := "/venv"
    image := "img" }

/-- Counterexample to claim C1 as stated: on a configuration with both
virtual-env-path and image set and NO execution-type override, the cmd
package's ValidateInputs does not return an InputError - it succeeds,
silently clearing the virtual-env path (the execution-type dispatch exists
only in the legacy cmd/api validateInputs). -/
theorem ValidateInputs_conflict_ignores_execution_type :
    cfgBoth.virtualEnvPath ≠ "" ∧ cfgBoth.image ≠ "" ∧ cfgBoth.executionType = "" ∧
    ValidateInputs fsOK cfgBoth = .ok { cfgBoth with virtualEnvPath := "" } := by
  refine ⟨by decide, by decide, rfl, ?_⟩
  rfl

/-- Claim C1 amended: in the cmd package's ValidateInputs the conflict
between virtual-env-path and image is always resolved by clearing the
virtual-env path, silently and without consulting execution-type; the
behaviour the claim describes (no override: InputError; venv: clear image;
container: clear virtual-env-path) is implemented only by the legacy cmd/api
validateInputs. -/
theorem execution_conflict_resolution (fs : Fs) (c : PlaybookConfig)
    (hv : c.virtualEnvPath ≠ "") (hi : c.image ≠ "") :
    (∀ c', ValidateInputs fs c = .ok c' →
      c'.virtualEnvPath = "" ∧ c'.image = c.image) ∧
    (c.executionType ≠ "container" → c.executionType ≠ "venv" →
      ∀ c', validateInputs fs c ≠ .ok c') ∧
    (c.executionType = "container" →
      ∀ c', validateInputs fs c = .ok c' → c'.virtualEnvPath = "") ∧
    (c.executionType = "venv" →
      ∀ c', validateInputs fs c = .ok c' → c'.image = "") := by
  obtain ⟨cl_v, cl_i, cl_e⟩ := clampVerbose_fields c
  refine ⟨?_, ?_, ?_, ?_⟩
  · intro c' h
    have hres := validateAfterClamp_conflict fs (clampVerbose c)
      (by rw [cl_v]; exact hv) (by rw [cl_i]; exact hi) c' h
    exact ⟨hres.1, by rw [hres.2, cl_i]⟩
  · intro h1 h2 c' h
    obtain ⟨c1, c2, hcf, _, _⟩ := validateInputsAfterClamp_ok fs (clampVerbose c) c' h
    unfold resolveExecConflictApi at hcf
    rw [cl_v, cl_i, cl_e] at hcf
    simp [hv, hi, h1, h2] at hcf
  · intro hct c' h
    obtain ⟨c1, c2, hcf, hvb, hssh⟩ := validateInputsAfterClamp_ok fs (clampVerbose c) c' h
    unfold resolveExecConflictApi at hcf
    rw [cl_v, cl_i, cl_e] at hcf
    simp [hv, hi, hct] at hcf
    obtain ⟨_, _, _, _, _, hempty⟩ := venvBlock_fields fs _ _ _ hvb
    have hven : c1.virtualEnvPath = "" := by
      first
        | rw [hcf]
        | rw [← hcf]
    have hc2 : c2 = c1 := hempty hven
    obtain ⟨s1, _, _, _, _⟩ := sshKeyBlock_fields fs _ _ _ hssh
    rw [s1, hc2, hven]
  · intro hvt c' h
    obtain ⟨c1, c2, hcf, hvb, hssh⟩ := validateInputsAfterClamp_ok fs (clampVerbose c) c' h
    unfold resolveExecConflictApi at hcf
    rw [cl_v, cl_i, cl_e] at hcf
    simp [hv, hi, hvt] at hcf
    obtain ⟨v1, _, _, _, _, _⟩ := venvBlock_fields fs _ _ _ hvb
    obtain ⟨_, s2, _, _, _⟩ := sshKeyBlock_fields fs _ _ _ hssh
    have himg : c1.image = "" := by
      first
        | rw [hcf]
        | rw [← hcf]
    rw [s2, v1, himg]

/-- Concrete configuration like cfgBoth but with the container override. -/
def cfgBothCont : PlaybookConfig := { cfgBoth with executionType := "container" }

/-- Concrete configuration like cfgBoth but with the venv override. -/
def cfgBothVenv : PlaybookConfig := { cfgBoth with executionType := "venv" }

/-- Witness for C1's amended theorem: the three behaviours at concrete
inputs - the cmd variant accepts cfgBoth and empties the venv path; the
legacy variant rejects cfgBoth (no override) and, under each override,
empties the field the override names. -/
theorem execution_conflict_resolution_witness :
    (({ cfgBoth with virtualEnvPath := "" } : PlaybookConfig).virtualEnvPath = "" ∧
      ({ cfgBoth with virtualEnvPath := "" } : PlaybookConfig).image = cfgBoth.image) ∧
    validateInputs fsOK cfgBoth ≠ .ok cfgBoth ∧
    (({ cfgBothCont with virtualEnvPath := "" } : PlaybookConfig).virtualEnvPath = "") ∧
    (({ cfgBothVenv with image := "" } : PlaybookConfig).image = "") := by
  have h1 := execution_conflict_resolution fsOK cfgBoth (by decide) (by decide)
  have h2 := execution_conflict_resolution fsVenv cfgBothCont (by decide) (by decide)
  have h3 := execution_conflict_resolution fsVenv cfgBothVenv (by decide) (by decide)
  exact ⟨h1.1 { cfgBoth with virtualEnvPath := "" } (by decide),
    h1.2.1 (by decide) (by decide) cfgBoth,
    h2.2.2.1 rfl { cfgBothCont with virtualEnvPath := "" } (by decide),
    h3.2.2.2 rfl { cfgBothVenv with image := "" } (by decide)⟩

/-- Claim C6: a verbose level outside [0,7] is never a validation error: the
whole of ValidateInputs behaves exactly as if the level had been 1 (the clamp
logs a warning and continues), and an accepted config carries level 1; a
level inside [0,7] is left unchanged by validation. -/
theorem verbose_level_clamp (fs : Fs) (c : PlaybookConfig) :
    ((c.verboseLevel < 0 ∨ 7 < c.verboseLevel) →
      ValidateInputs fs c = ValidateInputs fs { c with verboseLevel := 1 }) ∧
    ((c.verboseLevel < 0 ∨ 7 < c.verboseLevel) →
      ∀ c', ValidateInputs fs c = .ok c' → c'.verboseLevel = 1) ∧
    (0 ≤ c.verboseLevel → c.verboseLevel ≤ 7 →
      ∀ c', ValidateInputs fs c = .ok c' → c'.verboseLevel = c.verboseLevel) := by
  refine ⟨?_, ?_, ?_⟩
  · intro hcond
    show ValidateInputsAfterClamp fs (clampVerbose c) =
      ValidateInputsAfterClamp fs (clampVerbose { c with verboseLevel := 1 })
    have hcl : clampVerbose c = clampVerbose { c with verboseLevel := 1 } := by
      unfold clampVerbose
      rw [if_pos hcond, if_neg (by norm_num)]
    rw [hcl]
  · intro hcond c' h
    have hpres := validateAfterClamp_verbose fs (clampVerbose c) c' h
    rw [hpres]
    unfold clampVerbose
    rw [if_pos hcond]
  · intro h0 h7 c' h
    have hpres := validateAfterClamp_verbose fs (clampVerbose c) c' h
    rw [hpres]
    unfold clampVerbose
    rw [if_neg (by omega)]

/-- Concrete configuration with a verbose level far outside [0,7]. -/
def cfgV99 : PlaybookConfig :=
  { NewPlaybookConfig with
    playbook := "./site.yml"
    inventoryFile := "./hosts.yml"
    verboseLevel := 99 }

/-- Witness for C6: at verbose level 99 the validation runs exactly as at
level 1 and accepts the config with the level reset to 1. -/
theorem verbose_level_clamp_witness :
    (ValidateInputs fsOK cfgV99 = ValidateInputs fsOK { cfgV99 with verboseLevel := 1 }) ∧
    (({ cfgV99 with verboseLevel := 1 } : PlaybookConfig).verboseLevel = 1) := by
  have h := verbose_level_clamp fsOK cfgV99
  exact ⟨h.1 (by decide),
    h.2.1 (by decide) { cfgV99 with verboseLevel := 1 } (by decide)⟩

end AnsibleTui
